import Mathlib

/-!
Shallow embedding of `src/main.ts` of the gh-codex-agent repository, together
with theorems settling the frozen claims about it.

The program is a single TypeScript file.  The parts the claims are about:

* `safeRun` (main.ts:81-91): the Command Sandbox.  It checks the command text
  against a fixed deny-list of substrings; a hit short-circuits with
  `ok=false, code=126, stdout=""` and no subprocess; otherwise it spawns the
  command with `spawnSync` in the given working directory.
* `openaiLoop` (main.ts:110-286): the Agent Conversation Loop.  At most 30
  requests; a response with no tool calls completes the loop; tool calls are
  dispatched sequentially through a chain of `if` statements; a response
  transport error or exceeding the budget throws.
* `slug` (main.ts:288-290): branch-name normalisation.
* `main` (main.ts:292-390): the Task Pipeline (one iteration of its `while`
  body is embedded here as `runIteration`).

External collaborators (node `fs`, `path.join`, `spawnSync`, the OpenAI
endpoint, the Octokit client) are modelled as explicit state / oracle
parameters:

* the file system is a finite association table (`FS`);
* `path.join` is modelled for plain relative segments (the only ones the
  claims use) as separator concatenation;
* `spawnSync` is an oracle `String → String → RunResult`; every actual spawn
  is recorded as a `(cmd, cwd)` event so that claims about "no subprocess" and
  about the working directory are statable;
* the reasoning service is an oracle `Nat → List Msg → SvcResp` (request
  index and conversation so far);
* Octokit / console side effects of the pipeline are recorded as an `Effect`
  trace.

`fs.readFileSync` / `fs.readdirSync` throw on a missing path; in the model
this is the `ToolErr` error channel, and — exactly as in the source, whose
tool-dispatch loop has no try/catch — a `ToolErr` aborts the conversation
loop (and, through `main().catch`, the whole process).
-/

/-- Result shape of `safeRun` (main.ts:81): `{ ok, stdout, stderr, code }`. -/
structure RunResult where
  ok : Bool
  stdout : String
  stderr : String
  code : Int
deriving Repr, DecidableEq

/-- Does `pat` occur at the start of `l`? -/
def isPrefixL : List Char → List Char → Bool
  | [], _ => true
  | _ :: _, [] => false
  | a :: as, b :: bs => a == b && isPrefixL as bs

/-- Does `pat` occur as a contiguous sublist of the second list?
Models JavaScript `String.prototype.includes`. -/
def containsL (pat : List Char) : List Char → Bool
  | [] => pat.isEmpty
  | c :: rest => isPrefixL pat (c :: rest) || containsL pat rest

/-- Models the JavaScript expression `s.includes(pat)`. -/
def strIncludes (s pat : String) : Bool :=
  containsL pat.data s.data

/-- The deny-list of `safeRun` (main.ts:83-85).  `\x7b` is `LEFT CURLY`. -/
def forbidden : List String :=
  ["rm -rf /", "mkfs", "dd if=", ":()\x7b", "shutdown", "reboot", "chmod -R 777 /"]

/-- Models `forbidden.some(f => cmd.includes(f))` (main.ts:86). -/
def forbiddenHit (cmd : String) : Bool :=
  forbidden.any (fun f => strIncludes cmd f)

/-- The Command Sandbox `safeRun(cmd, cwd)` (main.ts:81-91).  `spawn` is the
`spawnSync` oracle; the second component lists the `(cmd, cwd)` pairs actually
handed to `spawnSync` (empty on a deny-list hit: no subprocess is spawned). -/
def safeRun (spawn : String → String → RunResult) (cmd cwd : String) :
    RunResult × List (String × String) :=
  if forbiddenHit cmd then
    (⟨false, "", "Forbidden command pattern: " ++ cmd, 126⟩, [])
  else
    (spawn cmd cwd, [(cmd, cwd)])

/-- One entry of a `fs.readdirSync(..., { withFileTypes: true })` listing
(main.ts:244-247): a name and whether it is a directory. -/
structure DirEnt where
  name : String
  isDir : Bool
deriving Repr, DecidableEq

/-- The file-system state visible to the tool executor: file contents and
directory listings, both keyed by absolute path.  `fsWrite` prepends, so the
most recent write of a path is found first.  (The `mkdirSync` call inside
`write_file` only affects directory listings, which no claim observes after a
write, so the `dirs` table is static here.) -/
structure FS where
  files : List (String × String)
  dirs : List (String × List DirEnt)
deriving Repr, DecidableEq

/-- Models `fs.readFileSync(abs, "utf8")`; `none` is the thrown ENOENT. -/
def fsRead (fs : FS) (p : String) : Option String :=
  (fs.files.find? (fun kv => kv.1 == p)).map (fun kv => kv.2)

/-- Models `fs.writeFileSync(abs, content, "utf8")` (overwrite). -/
def fsWrite (fs : FS) (p content : String) : FS :=
  ⟨(p, content) :: fs.files, fs.dirs⟩

/-- Models `fs.readdirSync(abs, { withFileTypes: true })`; `none` is the thrown
ENOENT when the directory does not exist. -/
def fsList (fs : FS) (p : String) : Option (List DirEnt) :=
  (fs.dirs.find? (fun kv => kv.1 == p)).map (fun kv => kv.2)

/-- Models `path.join(a, b)` for the plain relative segments the claims use (no
`..`/`.` normalisation, no absolute second argument). -/
def pathJoin (a b : String) : String :=
  a ++ "/" ++ b

/-- Models JavaScript `s.trim()`: strip whitespace from both ends.
(Structural implementation over the character list, so that proofs can
evaluate it; agrees with `String.trim`.) -/
def strTrim (s : String) : String :=
  ⟨((s.data.dropWhile Char.isWhitespace).reverse.dropWhile Char.isWhitespace).reverse⟩

/-- Models JavaScript `s.slice(0, n)`: the first `n` characters.
(All sliced strings in the claims are ASCII, where UTF-16 units and
characters coincide.) -/
def strTake (s : String) (n : Nat) : String :=
  ⟨s.data.take n⟩

/-- The loosely-typed argument object of a tool call as the dispatch code
reads it (main.ts:242,252,258-259,267): each field may be absent. -/
structure ToolArgs where
  dir : Option String := none
  file : Option String := none
  content : Option String := none
  cmd : Option String := none
  cwd : Option String := none
deriving Repr, DecidableEq

/-- A tool call as extracted from the response (main.ts:221-223): the name is
an arbitrary string, not restricted to the four known tools. -/
structure RawToolCall where
  name : String
  args : ToolArgs
deriving Repr, DecidableEq

/-- The `result` value JSON-stringified into the tool turn (main.ts:239-270).
`null` is the initial value, kept when no dispatch arm matches the name. -/
inductive ToolPayload where
  | null
  | listing (dir : String) (items : List DirEnt)
  | fileContent (file content : String)
  | writeAck (file : String) (bytes : Nat)
  | runOut (cmd : String) (ok : Bool) (code : Int) (stdout stderr : String)
deriving Repr, DecidableEq

/-- An exception thrown by a tool dispatch arm (the source has no try/catch
around the dispatch, so these abort `openaiLoop`). -/
inductive ToolErr where
  | enoentRead (path : String)
  | enoentDir (path : String)
deriving Repr, DecidableEq

/-- A turn of the conversation (`messages` array, main.ts:191-194,272-282).
Tool-turn content is `JSON.stringify(result)`; it is kept structured here. -/
inductive Msg where
  | system (content : String)
  | user (content : String)
  | assistant (content : String)
  | tool (name : String) (payload : ToolPayload)
deriving Repr, DecidableEq

/-- One dispatch of the `if` chain at main.ts:241-270 against a single tool
call.  Returns the payload pushed into the conversation, the file system
after the call, and the subprocess spawn events, or the thrown exception. -/
def execToolCall (spawn : String → String → RunResult) (repoDir : String)
    (fs : FS) (tc : RawToolCall) :
    Except ToolErr (ToolPayload × FS × List (String × String)) :=
  if tc.name == "list_files" then
    -- const dir = String(tc.args.dir ?? ".")
    let dir := tc.args.dir.getD "."
    let abs := pathJoin repoDir dir
    match fsList fs abs with
    | none => .error (.enoentDir abs)
    | some items => .ok (.listing dir items, fs, [])
  else if tc.name == "read_file" then
    -- const file = String(tc.args.file)  (String(undefined) = "undefined")
    let file := tc.args.file.getD "undefined"
    let abs := pathJoin repoDir file
    match fsRead fs abs with
    | none => .error (.enoentRead abs)
    | some content => .ok (.fileContent file content, fs, [])
  else if tc.name == "write_file" then
    let file := tc.args.file.getD "undefined"
    -- const content = String(tc.args.content ?? "")
    let content := tc.args.content.getD ""
    let abs := pathJoin repoDir file
    -- mkdirSync(dirname(abs)), writeFileSync(abs, content, "utf8")
    .ok (.writeAck file content.utf8ByteSize, fsWrite fs abs content, [])
  else if tc.name == "run" then
    let cmd := tc.args.cmd.getD "undefined"
    -- the source calls safeRun(cmd, repoDir): tc.args.cwd is never read
    let r := safeRun spawn cmd repoDir
    .ok (.runOut cmd r.1.ok r.1.code (strTake r.1.stdout 12000)
          (strTake r.1.stderr 12000), fs, r.2)
  else
    -- no arm matched: result stays null, still pushed as a tool turn
    .ok (.null, fs, [])

/-- The `for (const tc of toolCalls)` loop (main.ts:238-277): each call is
executed in listed order, its payload appended to the conversation as a tool
turn before the next call runs.  An exception aborts the batch (first
component `some e`); the messages pushed before the exception are kept, as
the mutated `messages` array would be. -/
def runToolCalls (spawn : String → String → RunResult) (repoDir : String) :
    List RawToolCall → FS → List Msg →
    Option ToolErr × FS × List Msg × List (String × String)
  | [], fs, msgs => (none, fs, msgs, [])
  | tc :: rest, fs, msgs =>
    match execToolCall spawn repoDir fs tc with
    | .error e => (some e, fs, msgs, [])
    | .ok (payload, fs1, evts) =>
      let out := runToolCalls spawn repoDir rest fs1 (msgs ++ [.tool tc.name payload])
      (out.1, out.2.1, out.2.2.1, evts ++ out.2.2.2)

/-- One reasoning-service exchange (main.ts:197-230): either the HTTP
response is not ok (main.ts:212-215, thrown), or it parses into the list of
tool calls and the concatenated final text. -/
inductive SvcResp where
  | transportErr (status : Nat) (body : String)
  | ok (toolCalls : List RawToolCall) (finalText : String)
deriving Repr

/-- How `openaiLoop` ends.  In the source everything except `completed` is a
thrown exception that escapes `openaiLoop` (and, uncaught, the process). -/
inductive LoopResult where
  | completed (finalText : String)
  | transportFatal (status : Nat) (body : String)
  | toolFatal (e : ToolErr)
  | budgetExhausted
deriving Repr, DecidableEq

/-- Observable outcome of a run of the conversation loop: how it ended, how
many requests were sent to the reasoning service, the final file system and
conversation, and every subprocess spawn event of `run` tool calls. -/
structure LoopOut where
  result : LoopResult
  requests : Nat
  fs : FS
  msgs : List Msg
  spawns : List (String × String)
deriving Repr

/-- The `for (let step = 0; step < 30; step++)` loop of `openaiLoop`
(main.ts:196-285), with `fuel` the remaining iterations and `reqs` the
requests already issued.  `svc` is the reasoning-service oracle, applied to
the request index and the conversation so far.  Fuel running out models
falling off the `for` loop into `throw new Error("OpenAI loop exceeded max
steps.")` (main.ts:285). -/
def loopGo (svc : Nat → List Msg → SvcResp) (spawn : String → String → RunResult)
    (repoDir : String) : Nat → Nat → FS → List Msg → LoopOut
  | 0, reqs, fs, msgs => ⟨.budgetExhausted, reqs, fs, msgs, []⟩
  | fuel + 1, reqs, fs, msgs =>
    match svc reqs msgs with
    | .transportErr status body =>
      -- if (!resp.ok) throw new Error(`OpenAI error: ...`)
      ⟨.transportFatal status body, reqs + 1, fs, msgs, []⟩
    | .ok toolCalls finalText =>
      if toolCalls.isEmpty then
        -- no tool calls: the loop is done, finalText is the summary
        ⟨.completed finalText, reqs + 1, fs, msgs, []⟩
      else
        let out := runToolCalls spawn repoDir toolCalls fs msgs
        match out.1 with
        | some e => ⟨.toolFatal e, reqs + 1, out.2.1, out.2.2.1, out.2.2.2⟩
        | none =>
          -- if (finalText.trim()) push an assistant turn after the results
          let msgs2 :=
            if strTrim finalText == "" then out.2.2.1
            else out.2.2.1 ++ [.assistant finalText]
          let rec_ := loopGo svc spawn repoDir fuel (reqs + 1) out.2.1 msgs2
          ⟨rec_.result, rec_.requests, rec_.fs, rec_.msgs, out.2.2.2 ++ rec_.spawns⟩

/-- The loop `openaiLoop` (main.ts:110-286): budget 30, starting from the system and
user prompts.  The prompt text (issue rendering, stack hints) is passed in as
`sysText` / `usrText`; no claim depends on its contents. -/
def openaiLoop (svc : Nat → List Msg → SvcResp) (spawn : String → String → RunResult)
    (repoDir : String) (fs : FS) (sysText usrText : String) : LoopOut :=
  loopGo svc spawn repoDir 30 0 fs [.system sysText, .user usrText]

/-- Is `c` one of `a-z0-9`, i.e. matched by the class `[a-z0-9]` of the slug
regex (main.ts:289)? -/
def isAlnumLower (c : Char) : Bool :=
  (97 ≤ c.toNat && c.toNat ≤ 122) || (48 ≤ c.toNat && c.toNat ≤ 57)

/-- Models `replace(/[^a-z0-9]+/g, "-")`: every maximal run of characters outside
`[a-z0-9]` becomes a single hyphen.  `inRun` records whether the previous
character was part of such a run. -/
def collapseAux (inRun : Bool) : List Char → List Char
  | [] => []
  | c :: rest =>
    if isAlnumLower c then c :: collapseAux false rest
    else if inRun then collapseAux true rest
    else '-' :: collapseAux true rest

/-- Models the leading half of `replace(/(^-|-$)/g, "")`: drop one leading hyphen. -/
def trimLead : List Char → List Char
  | [] => []
  | c :: rest => if c == '-' then rest else c :: rest

/-- Models the trailing half of `replace(/(^-|-$)/g, "")`: drop one trailing hyphen. -/
def trimTrail (l : List Char) : List Char :=
  if l.getLast? == some '-' then l.dropLast else l

/-- Branch-name normalisation `slug` (main.ts:288-290):
`s.toLowerCase().replace(/[^a-z0-9]+/g, "-").replace(/(^-|-$)/g, "").slice(0, 40)`.
`toLowerCase` is modelled by `Char.toLower` (they agree on ASCII, and every
non-ASCII character is outside `[a-z0-9]` both before and after lowering). -/
def slug (s : String) : String :=
  ⟨(trimTrail (trimLead (collapseAux false (s.data.map Char.toLower)))).take 40⟩

/-- Models the commit-message escaping of double quotes (main.ts:358):
each double quote of the title becomes backslash-quote. -/
def escQuotes (s : String) : String :=
  ⟨(s.data.map (fun c => if c == '"' then ['\\', '"'] else [c])).flatten⟩

/-- An externally visible side effect of one Task Pipeline iteration
(main.ts:302-384): a `safeRun` invocation (with its working directory), an
issue comment, a pull-request creation, a directory removal, or a sleep. -/
inductive Effect where
  | removeDir (path : String)
  | gitCmd (cmd : String) (cwd : String)
  | comment (issueNumber : Nat) (body : String)
  | createPR (head base title body : String)
  | sleep (ms : Nat)
deriving Repr, DecidableEq

/-- How one iteration of the `while (true)` body ends: either control reaches
the bottom / a `continue` (next poll cycle), or the process terminates —
`die` calls `process.exit(1)` (main.ts:45-48), and an exception escaping
`main` reaches `main().catch`, which also exits (main.ts:387-390). -/
inductive IterOutcome where
  | continueNext
  | processExit (diag : String)
deriving Repr, DecidableEq

/-- The issue selected for the run (main.ts:321-323). -/
structure IssueInfo where
  number : Nat
  title : String
  body : String
deriving Repr

/-- The Evaluating / Publishing / Reporting-No-Change phase of one pipeline
iteration (main.ts:344-383), entered after the conversation loop has
completed with summary `finalText`.  `effPre` is the effect trace accumulated
so far; `prUrl` is the `html_url` the change-request creation call returns. -/
def publishPhase (spawn : String → String → RunResult)
    (repoDir branch baseBranch prUrl : String) (issue : IssueInfo)
    (finalText : String) (effPre : List Effect) : IterOutcome × List Effect :=
  let st := (safeRun spawn "git status --porcelain" repoDir).1
  let eff4 := effPre ++ [.gitCmd "git status --porcelain" repoDir]
  if strTrim st.stdout == "" then
    -- comment on the issue and `continue` with no publish (main.ts:345-355)
    (.continueNext,
      eff4 ++
        [.comment issue.number
          (strTake ("I couldn\x27t produce any changes for this issue.\n\nModel notes:\n"
            ++ finalText) 65000),
         .sleep 2000])
  else
    -- git add -A; git commit; git push; open PR; comment (main.ts:357-383)
    let commitCmd := "git commit -m \"Fix: #" ++ toString issue.number ++ " "
      ++ escQuotes issue.title ++ "\""
    let eff5 := eff4 ++ [.gitCmd "git add -A" repoDir, .gitCmd commitCmd repoDir]
    let pushCmd := "git push -u origin " ++ branch
    let push := (safeRun spawn pushCmd repoDir).1
    let eff6 := eff5 ++ [.gitCmd pushCmd repoDir]
    if push.ok = false then
      -- die(`git push failed: ...`)
      (.processExit ("git push failed: " ++ push.stderr), eff6)
    else
      (.continueNext,
        eff6 ++
          [.createPR branch baseBranch
            ("#" ++ toString issue.number ++ " " ++ issue.title)
            (strTake (finalText ++ "\n\nCloses #" ++ toString issue.number) 65000),
           .comment issue.number
            (strTake ("Opened PR: " ++ prUrl ++ "\n\n" ++ finalText) 65000),
           .sleep 2000])

/-- One iteration of the `while (true)` body of the pipeline from the point where
an eligible issue has been found (main.ts:321-384), as an outcome plus the
trace of its effects.  `spawn` backs every `safeRun`; `svc`, `fs0`, `sysText`
and `usrText` parameterise the embedded `openaiLoop` call; `prUrl` is the
URL returned by the change-request creation, used only in the final comment. -/
def runIteration (spawn : String → String → RunResult)
    (svc : Nat → List Msg → SvcResp) (cloneUrl workRoot repoName baseBranch prUrl : String)
    (issue : IssueInfo) (fs0 : FS) (sysText usrText : String) :
    IterOutcome × List Effect :=
  let repoDir := pathJoin workRoot (repoName ++ "-" ++ toString issue.number)
  let cloneCmd := "git clone " ++ cloneUrl ++ " " ++ repoDir
  -- fs.rmSync(repoDir, { recursive: true, force: true })
  let eff1 : List Effect := [.removeDir repoDir, .gitCmd cloneCmd workRoot]
  let r1 := (safeRun spawn cloneCmd workRoot).1
  if r1.ok = false then
    -- die(`git clone failed: ...`)
    (.processExit ("git clone failed: " ++ r1.stderr), eff1)
  else
    -- safeRun(`git checkout ${base}`) and safeRun(`git checkout -b ${branch}`),
    -- results ignored by the source
    let branch := "agent/issue-" ++ toString issue.number ++ "-" ++ slug issue.title
    let eff3 := eff1 ++ [.gitCmd ("git checkout " ++ baseBranch) repoDir,
      .gitCmd ("git checkout -b " ++ branch) repoDir]
    let lo := openaiLoop svc spawn repoDir fs0 sysText usrText
    match lo.result with
    | .completed finalText =>
      publishPhase spawn repoDir branch baseBranch prUrl issue finalText eff3
    | .transportFatal status body =>
      (.processExit ("OpenAI error: " ++ toString status ++ " " ++ body), eff3)
    | .toolFatal e =>
      (.processExit ("uncaught tool exception: " ++ toString (repr e)), eff3)
    | .budgetExhausted =>
      (.processExit "OpenAI loop exceeded max steps.", eff3)

/-- Argument object carrying only a `file` field. -/
def argsFile (f : String) : ToolArgs := ⟨none, some f, none, none, none⟩

/-- Argument object carrying `file` and `content` fields. -/
def argsWrite (f c : String) : ToolArgs := ⟨none, some f, some c, none, none⟩

/-- Argument object carrying a `cmd` field and an optional `cwd` field. -/
def argsRun (cmd : String) (cwd : Option String) : ToolArgs :=
  ⟨none, none, none, some cmd, cwd⟩

/-- Argument object with no fields set. -/
def argsNone : ToolArgs := ⟨none, none, none, none, none⟩

/-- Does the effect mark the work item or publish a change request
(an issue comment or a pull-request creation)?  Everything the pipeline can
do that would make the item stop looking untouched. -/
def isMark : Effect → Bool
  | .comment _ _ => true
  | .createPR _ _ _ _ => true
  | _ => false

/-- Is the outcome a `continue` into the next poll cycle? -/
def isContinueNext : IterOutcome → Bool
  | .continueNext => true
  | .processExit _ => false

/-- Spawn events of a tool dispatch result (empty when the dispatch threw). -/
def spawnEvents (r : Except ToolErr (ToolPayload × FS × List (String × String))) :
    List (String × String) :=
  match r with
  | .ok x => x.2.2
  | .error _ => []

/-- A spawn oracle whose every command succeeds with empty output. -/
def spawnOk : String → String → RunResult := fun _ _ => ⟨true, "", "", 0⟩

/-- A reasoning-service stub whose every response asks to read the absent
file `nope.txt` (and nothing else). -/
def svcReadMissing : Nat → List Msg → SvcResp :=
  fun _ _ => .ok [⟨"read_file", argsFile "nope.txt"⟩] ""

/-- A reasoning-service stub whose every response asks for one call of the
unknown tool `"noop"` — a call whose execution never throws. -/
def svcNoop : Nat → List Msg → SvcResp :=
  fun _ _ => .ok [⟨"noop", argsNone⟩] ""

/-- A spawn oracle that reports the working directory it was given as the
stdout of the command, making the execution directory observable. -/
def spawnEcho : String → String → RunResult := fun _ cwd => ⟨true, cwd, "", 0⟩

/-- Is every character of `l` a lowercase alphanumeric or a hyphen? -/
def slugChars (l : List Char) : Bool :=
  l.all (fun c => isAlnumLower c || c == '-')

/-- Does `l` avoid two adjacent hyphens (single-hyphen separators only)? -/
def noDD : List Char → Bool
  | [] => true
  | [_] => true
  | a :: b :: rest => !(a == '-' && b == '-') && noDD (b :: rest)

/-- Is the first character (if any) not a hyphen? -/
def headNotDash : List Char → Bool
  | [] => true
  | c :: _ => !(c == '-')

/-- A spawn oracle whose every command fails (so `git clone` fails). -/
def spawnCloneFail : String → String → RunResult :=
  fun _ _ => ⟨false, "", "fatal: could not read from remote", 128⟩

/-- A reasoning-service stub that immediately completes with summary
`"done"` (no tool calls). -/
def svcDone : Nat → List Msg → SvcResp := fun _ _ => .ok [] "done"

/-- A spawn oracle under which every git command succeeds and
`git status --porcelain` reports a modified file. -/
def spawnDirty : String → String → RunResult :=
  fun _ _ => ⟨true, " M a.txt\n", "", 0⟩

/-- C3: Every command containing a deny-listed substring is short-circuited
by the Command Sandbox: `ok=false`, synthetic exit code 126, empty stdout,
and no `(cmd, cwd)` pair is ever handed to `spawnSync`. -/
theorem C3_denylist_short_circuit (spawn : String → String → RunResult)
    (cmd cwd f : String) (hf : f ∈ forbidden) (hsub : strIncludes cmd f = true) :
    safeRun spawn cmd cwd =
      (⟨false, "", "Forbidden command pattern: " ++ cmd, 126⟩, []) := by
  unfold safeRun
  rw [if_pos]
  exact List.any_eq_true.mpr ⟨f, hf, hsub⟩

/-- Witness for C3 at the concrete command `"mkfs /dev/sda"`. -/
theorem C3_denylist_short_circuit_witness :
    safeRun (fun _ _ => ⟨true, "spawned", "", 0⟩) "mkfs /dev/sda" "/work" =
      (⟨false, "", "Forbidden command pattern: mkfs /dev/sda", 126⟩, []) :=
  C3_denylist_short_circuit (fun _ _ => ⟨true, "spawned", "", 0⟩)
    "mkfs /dev/sda" "/work" "mkfs" (by decide) (by decide)

/-- C6: For every pre-state, relative path and content, the `write_file`
dispatch succeeds, stores the content at `path.join(repoDir, file)` and
acknowledges the UTF-8 byte length; a `read_file` of the same relative path
against the resulting state returns exactly the written content. -/
theorem C6_write_read_roundtrip (spawn : String → String → RunResult)
    (repoDir : String) (fs : FS) (file content : String) :
    execToolCall spawn repoDir fs ⟨"write_file", argsWrite file content⟩ =
      .ok (.writeAck file content.utf8ByteSize,
           fsWrite fs (pathJoin repoDir file) content, [])
    ∧ execToolCall spawn repoDir (fsWrite fs (pathJoin repoDir file) content)
        ⟨"read_file", argsFile file⟩ =
      .ok (.fileContent file content,
           fsWrite fs (pathJoin repoDir file) content, []) := by
  constructor
  · rfl
  · simp [execToolCall, argsFile, fsRead, fsWrite]

/-- C7: Tool calls of one response are executed sequentially in listed order:
executing `write_file("a.txt","1")` then `write_file("a.txt","2")` appends
the two acknowledgement turns in that order, raises no error, and leaves
`a.txt` holding `"2"` (the second write overwrites the first). -/
theorem C7_sequential_overwrite (spawn : String → String → RunResult)
    (repoDir : String) (fs : FS) (msgs : List Msg) :
    runToolCalls spawn repoDir
      [⟨"write_file", argsWrite "a.txt" "1"⟩, ⟨"write_file", argsWrite "a.txt" "2"⟩]
      fs msgs =
      (none,
       fsWrite (fsWrite fs (pathJoin repoDir "a.txt") "1") (pathJoin repoDir "a.txt") "2",
       msgs ++ [.tool "write_file" (.writeAck "a.txt" 1),
                .tool "write_file" (.writeAck "a.txt" 1)], [])
    ∧ fsRead
        (fsWrite (fsWrite fs (pathJoin repoDir "a.txt") "1") (pathJoin repoDir "a.txt") "2")
        (pathJoin repoDir "a.txt") = some "2" := by
  constructor
  · simp [runToolCalls, execToolCall, argsWrite]
    exact ⟨by decide, by decide⟩
  · simp [fsRead, fsWrite]

/-- C10: A tool call whose name is none of the four known tools leaves
`result` at its initial `null`, which is still pushed as one tool turn, and
the loop proceeds to the next request instead of raising an error: one step
of the loop on a response carrying only such a call equals the rest of the
loop on the conversation extended by exactly that one null tool turn. -/
theorem C10_unknown_tool_null_turn (spawn : String → String → RunResult)
    (svc : Nat → List Msg → SvcResp) (repoDir : String) (fs : FS)
    (tc : RawToolCall) (fuel reqs : Nat) (msgs : List Msg)
    (h1 : (tc.name == "list_files") = false) (h2 : (tc.name == "read_file") = false)
    (h3 : (tc.name == "write_file") = false) (h4 : (tc.name == "run") = false)
    (hsvc : svc reqs msgs = .ok [tc] "") :
    execToolCall spawn repoDir fs tc = .ok (.null, fs, [])
    ∧ loopGo svc spawn repoDir (fuel + 1) reqs fs msgs
      = loopGo svc spawn repoDir fuel (reqs + 1) fs (msgs ++ [.tool tc.name .null]) := by
  have he : execToolCall spawn repoDir fs tc = .ok (.null, fs, []) := by
    simp [execToolCall, h1, h2, h3, h4]
  refine ⟨he, ?_⟩
  simp [loopGo, hsvc, runToolCalls, he]
  rfl

/-- Witness for C10: a call named `"frobnicate"` against a stub service. -/
theorem C10_unknown_tool_null_turn_witness :
    execToolCall (fun _ _ => ⟨true, "", "", 0⟩)
      "/repo" ⟨[], []⟩ ⟨"frobnicate", argsNone⟩ = .ok (.null, ⟨[], []⟩, [])
    ∧ loopGo (fun _ _ => .ok [⟨"frobnicate", argsNone⟩] "")
        (fun _ _ => ⟨true, "", "", 0⟩) "/repo" 3 0 ⟨[], []⟩ []
      = loopGo (fun _ _ => .ok [⟨"frobnicate", argsNone⟩] "")
          (fun _ _ => ⟨true, "", "", 0⟩) "/repo" 2 1 ⟨[], []⟩
          [.tool "frobnicate" .null] := by
  have h := C10_unknown_tool_null_turn (fun _ _ => ⟨true, "", "", 0⟩)
    (fun _ _ => .ok [⟨"frobnicate", argsNone⟩] "") "/repo" ⟨[], []⟩
    ⟨"frobnicate", argsNone⟩ 2 0 [] (by decide) (by decide) (by decide) (by decide) rfl
  simpa using h

/-- C1 counterexample: on an empty workspace, a response asking to read the
absent `nope.txt` is fatal to the run — the loop ends in `toolFatal` after a
single request, and no `ToolResult` for the failure is appended to the
conversation (the conversation still holds only the two initial prompts).
This refutes the claim that a failing `read_file` is encoded into the
`ToolResult` and the loop continues. -/
theorem C1_read_failure_fatal_counterexample :
    (openaiLoop svcReadMissing spawnOk "/repo" ⟨[], []⟩ "sys" "usr").result
      = .toolFatal (.enoentRead "/repo/nope.txt")
    ∧ (openaiLoop svcReadMissing spawnOk "/repo" ⟨[], []⟩ "sys" "usr").requests = 1
    ∧ (openaiLoop svcReadMissing spawnOk "/repo" ⟨[], []⟩ "sys" "usr").msgs
      = [.system "sys", .user "usr"] :=
  ⟨rfl, rfl, rfl⟩

/-- C1 as amended: (1) a `read_file` on an absent path throws, aborting the
whole tool batch with nothing appended and the remaining calls skipped;
(2) any tool-dispatch exception ends the conversation loop in the fatal
`toolFatal` state; (3) by contrast a failing `run` command is not an
exception: its non-zero exit is encoded into the `ToolResult` appended to
the conversation and execution continues. -/
theorem C1_amended_tool_failure_semantics :
    (∀ (spawn : String → String → RunResult) (repoDir file : String) (fs : FS)
        (rest : List RawToolCall) (msgs : List Msg),
      fsRead fs (pathJoin repoDir file) = none →
      runToolCalls spawn repoDir (⟨"read_file", argsFile file⟩ :: rest) fs msgs
        = (some (.enoentRead (pathJoin repoDir file)), fs, msgs, []))
    ∧ (∀ (svc : Nat → List Msg → SvcResp) (spawn : String → String → RunResult)
        (repoDir : String) (fs : FS) (fuel reqs : Nat) (msgs : List Msg)
        (calls : List RawToolCall) (t : String) (e : ToolErr),
      svc reqs msgs = .ok calls t → calls ≠ [] →
      (runToolCalls spawn repoDir calls fs msgs).1 = some e →
      (loopGo svc spawn repoDir (fuel + 1) reqs fs msgs).result = .toolFatal e)
    ∧ (∀ (spawn : String → String → RunResult) (repoDir cmd : String) (fs : FS)
        (msgs : List Msg),
      forbiddenHit cmd = false → (spawn cmd repoDir).ok = false →
      runToolCalls spawn repoDir [⟨"run", argsRun cmd none⟩] fs msgs
        = (none, fs,
           msgs ++ [.tool "run" (.runOut cmd (spawn cmd repoDir).ok
             (spawn cmd repoDir).code (strTake (spawn cmd repoDir).stdout 12000)
             (strTake (spawn cmd repoDir).stderr 12000))],
           [(cmd, repoDir)])) := by
  refine ⟨?_, ?_, ?_⟩
  · intro spawn repoDir file fs rest msgs hmiss
    simp [runToolCalls, execToolCall, argsFile, hmiss]
  · intro svc spawn repoDir fs fuel reqs msgs calls t e hsvc hne herr
    have hcs : calls.isEmpty = false := by
      cases calls
      · exact absurd rfl hne
      · rfl
    simp [loopGo, hsvc, hcs, herr]
  · intro spawn repoDir cmd fs msgs hforb _hfail
    simp [runToolCalls, execToolCall, argsRun, safeRun, hforb]

/-- Witness for the amended C1 at concrete inputs: an absent `read_file`
aborts (batch and loop), and a failing `make test` is fed back as data. -/
theorem C1_amended_tool_failure_semantics_witness :
    runToolCalls spawnOk "/repo" [⟨"read_file", argsFile "nope.txt"⟩] ⟨[], []⟩ []
      = (some (.enoentRead "/repo/nope.txt"), ⟨[], []⟩, [], [])
    ∧ (loopGo svcReadMissing spawnOk "/repo" 30 0 ⟨[], []⟩
        [.system "sys", .user "usr"]).result
      = .toolFatal (.enoentRead "/repo/nope.txt")
    ∧ runToolCalls (fun _ _ => ⟨false, "", "tests failed", 2⟩) "/repo"
        [⟨"run", argsRun "make test" none⟩] ⟨[], []⟩ []
      = (none, ⟨[], []⟩,
         [.tool "run" (.runOut "make test" false 2 "" "tests failed")], 
         [("make test", "/repo")]) := by
  refine ⟨?_, ?_, ?_⟩
  · exact C1_amended_tool_failure_semantics.1 spawnOk "/repo" "nope.txt"
      ⟨[], []⟩ [] [] rfl
  · exact C1_amended_tool_failure_semantics.2.1 svcReadMissing spawnOk "/repo"
      ⟨[], []⟩ 29 0 [.system "sys", .user "usr"]
      [⟨"read_file", argsFile "nope.txt"⟩] "" (.enoentRead "/repo/nope.txt")
      rfl (by decide) rfl
  · have h := C1_amended_tool_failure_semantics.2.2
      (fun _ _ => ⟨false, "", "tests failed", 2⟩) "/repo" "make test"
      ⟨[], []⟩ [] (by decide) rfl
    simpa using h

/-- If every response of the reasoning service carries at least one tool call
and executing its batch never throws, the loop consumes its whole fuel, one
request per step, and ends in `budgetExhausted`. -/
theorem loopGo_budget_exhausts (svc : Nat → List Msg → SvcResp)
    (spawn : String → String → RunResult) (repoDir : String)
    (H : ∀ n ms, ∃ cs t, svc n ms = .ok cs t ∧ cs ≠ [] ∧
      ∀ fs2 ms2, (runToolCalls spawn repoDir cs fs2 ms2).1 = none) :
    ∀ (fuel reqs : Nat) (fs : FS) (msgs : List Msg),
      (loopGo svc spawn repoDir fuel reqs fs msgs).result = .budgetExhausted
      ∧ (loopGo svc spawn repoDir fuel reqs fs msgs).requests = reqs + fuel := by
  intro fuel
  induction fuel with
  | zero => intro reqs fs msgs; exact ⟨rfl, rfl⟩
  | succ n ih =>
    intro reqs fs msgs
    obtain ⟨cs, t, hsvc, hne, hok⟩ := H reqs msgs
    have hcs : cs.isEmpty = false := by
      cases cs
      · exact absurd rfl hne
      · rfl
    have herr := hok fs msgs
    constructor
    · simp [loopGo, hsvc, hcs, herr]
      exact (ih _ _ _).1
    · simp [loopGo, hsvc, hcs, herr]
      rw [(ih _ _ _).2]
      omega

/-- C2 counterexample: `svcReadMissing` is a reasoning-service stub that
always returns (at least) one tool call, yet the loop terminates after a
single request in the `toolFatal` error state, not after 30 requests in
`BudgetExhausted` — the universally quantified claim fails for stubs whose
tool call throws during execution. -/
theorem C2_budget_counterexample :
    (openaiLoop svcReadMissing spawnOk "/repo" ⟨[], []⟩ "sys" "usr").requests = 1
    ∧ ((openaiLoop svcReadMissing spawnOk "/repo" ⟨[], []⟩ "sys" "usr").result
        == LoopResult.budgetExhausted) = false :=
  ⟨rfl, rfl⟩

/-- C2 as amended: for every reasoning-service stub that always returns at
least one tool call *whose execution does not throw*, the loop issues
exactly 30 requests and ends in the fatal `budgetExhausted` state; inside
the pipeline this aborts the run with the `"OpenAI loop exceeded max
steps."` diagnostic and no publish effect (no comment, no change request)
is ever attempted. -/
theorem C2_amended_budget_exhaustion :
    (∀ (svc : Nat → List Msg → SvcResp) (spawn : String → String → RunResult)
        (repoDir : String) (fs : FS) (sysText usrText : String),
      (∀ n ms, ∃ cs t, svc n ms = .ok cs t ∧ cs ≠ [] ∧
        ∀ fs2 ms2, (runToolCalls spawn repoDir cs fs2 ms2).1 = none) →
      (openaiLoop svc spawn repoDir fs sysText usrText).result = .budgetExhausted
      ∧ (openaiLoop svc spawn repoDir fs sysText usrText).requests = 30)
    ∧ (∀ (spawn : String → String → RunResult) (svc : Nat → List Msg → SvcResp)
        (cloneUrl workRoot repoName baseBranch prUrl : String)
        (issue : IssueInfo) (fs0 : FS) (sysText usrText : String),
      (∀ n ms, ∃ cs t, svc n ms = .ok cs t ∧ cs ≠ [] ∧
        ∀ fs2 ms2, (runToolCalls spawn
          (pathJoin workRoot (repoName ++ "-" ++ toString issue.number))
          cs fs2 ms2).1 = none) →
      (safeRun spawn
        ("git clone " ++ cloneUrl ++ " "
          ++ pathJoin workRoot (repoName ++ "-" ++ toString issue.number))
        workRoot).1.ok = true →
      (runIteration spawn svc cloneUrl workRoot repoName baseBranch prUrl
        issue fs0 sysText usrText).1 = .processExit "OpenAI loop exceeded max steps."
      ∧ ((runIteration spawn svc cloneUrl workRoot repoName baseBranch prUrl
        issue fs0 sysText usrText).2.filter (fun e => isMark e)) = []) := by
  constructor
  · intro svc spawn repoDir fs sysText usrText H
    exact loopGo_budget_exhausts svc spawn repoDir H 30 0 fs
      [.system sysText, .user usrText]
  · intro spawn svc cloneUrl workRoot repoName baseBranch prUrl issue fs0
      sysText usrText H hclone
    have hb : (openaiLoop svc spawn
        (pathJoin workRoot (repoName ++ "-" ++ toString issue.number))
        fs0 sysText usrText).result = .budgetExhausted :=
      (loopGo_budget_exhausts svc spawn _ H 30 0 fs0 _).1
    constructor
    · simp [runIteration, hclone, hb]
    · simp [runIteration, hclone, hb, isMark]

/-- Witness for the amended C2: with the `svcNoop` stub the loop issues 30
requests and exhausts the budget, and the pipeline aborts with no mark. -/
theorem C2_amended_budget_exhaustion_witness :
    ((openaiLoop svcNoop spawnOk "/repo" ⟨[], []⟩ "sys" "usr").result
        = .budgetExhausted
      ∧ (openaiLoop svcNoop spawnOk "/repo" ⟨[], []⟩ "sys" "usr").requests = 30)
    ∧ ((runIteration spawnOk svcNoop "https://x/y.git" "/work" "repo" "main"
          "https://pr/1" ⟨7, "Title", "Body"⟩ ⟨[], []⟩ "sys" "usr").1
        = .processExit "OpenAI loop exceeded max steps."
      ∧ ((runIteration spawnOk svcNoop "https://x/y.git" "/work" "repo" "main"
          "https://pr/1" ⟨7, "Title", "Body"⟩ ⟨[], []⟩ "sys" "usr").2.filter
            (fun e => isMark e)) = []) := by
  have H : ∀ (n : Nat) (ms : List Msg), ∃ cs t, svcNoop n ms = .ok cs t ∧ cs ≠ [] ∧
      ∀ (fs2 : FS) (ms2 : List Msg),
        (runToolCalls spawnOk "/work/repo-7" cs fs2 ms2).1 = none := by
    intro n ms
    exact ⟨[⟨"noop", argsNone⟩], "", rfl, by decide, fun fs2 ms2 => rfl⟩
  refine ⟨?_, ?_⟩
  · exact C2_amended_budget_exhaustion.1 svcNoop spawnOk "/repo" ⟨[], []⟩ "sys" "usr"
      (by intro n ms; exact ⟨[⟨"noop", argsNone⟩], "", rfl, by decide, fun fs2 ms2 => rfl⟩)
  · exact C2_amended_budget_exhaustion.2 spawnOk svcNoop "https://x/y.git" "/work"
      "repo" "main" "https://pr/1" ⟨7, "Title", "Body"⟩ ⟨[], []⟩ "sys" "usr" H rfl

/-- C9 counterexample: a `run` call with `cwd = "sub"` still executes in the
workspace root `"/ws"` — the spawn event records working directory `"/ws"`,
and the echoed stdout is `"/ws"`, not the subdirectory `"/ws/sub"`.  This
refutes the claim that the `cwd` argument is honoured. -/
theorem C9_cwd_ignored_counterexample :
    execToolCall spawnEcho "/ws" ⟨[], []⟩ ⟨"run", argsRun "pwd" (some "sub")⟩
      = .ok (.runOut "pwd" true 0 "/ws" "", ⟨[], []⟩, [("pwd", "/ws")])
    ∧ (pathJoin "/ws" "sub" == "/ws") = false :=
  ⟨rfl, rfl⟩

/-- C9 as amended: the `run` dispatch always hands the workspace root to the
Command Sandbox as the working directory — every subprocess spawn event of a
`run` tool call carries `repoDir`, whatever the `cwd` argument was (the
schema declares `cwd`, but the dispatch never reads it). -/
theorem C9_amended_run_always_workspace_root
    (spawn : String → String → RunResult) (repoDir : String) (fs : FS)
    (args : ToolArgs) (ev : String × String)
    (hev : ev ∈ spawnEvents (execToolCall spawn repoDir fs ⟨"run", args⟩)) :
    ev.2 = repoDir := by
  by_cases hf : forbiddenHit (args.cmd.getD "undefined") = true
  · simp [execToolCall, spawnEvents, safeRun, hf] at hev
  · simp [execToolCall, spawnEvents, safeRun, hf] at hev
    simp [hev]

/-- Witness for the amended C9 at the concrete call of the counterexample
scenario: the sole spawn event carries the workspace root. -/
theorem C9_amended_run_always_workspace_root_witness :
    ("pwd", "/ws") ∈ spawnEvents
      (execToolCall spawnEcho "/ws" ⟨[], []⟩ ⟨"run", argsRun "pwd" (some "sub")⟩)
    ∧ ("pwd", "/ws").2 = "/ws" :=
  ⟨by decide,
   C9_amended_run_always_workspace_root spawnEcho "/ws" ⟨[], []⟩
     (argsRun "pwd" (some "sub")) ("pwd", "/ws") (by decide)⟩

/-- A lowercase alphanumeric is never the hyphen. -/
theorem isAlnumLower_ne_dash {c : Char} (h : isAlnumLower c = true) :
    (c == '-') = false := by
  cases hc : c == '-'
  · rfl
  · have : c = '-' := eq_of_beq hc
    subst this
    exact absurd h (by decide)

/-- Every character the collapse step emits is alphanumeric or a hyphen. -/
theorem slugChars_collapseAux : ∀ (l : List Char) (b : Bool),
    slugChars (collapseAux b l) = true := by
  intro l
  induction l with
  | nil => intro b; rfl
  | cons c rest ih =>
    intro b
    by_cases ha : isAlnumLower c = true
    · have hc : collapseAux b (c :: rest) = c :: collapseAux false rest := by
        simp [collapseAux, ha]
      rw [hc]
      simp only [slugChars, List.all_cons, Bool.and_eq_true]
      exact ⟨by simp [ha], ih false⟩
    · cases b with
      | true =>
        have hc : collapseAux true (c :: rest) = collapseAux true rest := by
          simp [collapseAux, ha]
        rw [hc]
        exact ih true
      | false =>
        have hc : collapseAux false (c :: rest) = '-' :: collapseAux true rest := by
          simp [collapseAux, ha]
        rw [hc]
        simp only [slugChars, List.all_cons, Bool.and_eq_true]
        exact ⟨by decide, ih true⟩

/-- The collapse step entered mid-run never emits a leading hyphen. -/
theorem headNotDash_collapseAux_true : ∀ (l : List Char),
    headNotDash (collapseAux true l) = true := by
  intro l
  induction l with
  | nil => rfl
  | cons c rest ih =>
    by_cases ha : isAlnumLower c = true
    · have hc : collapseAux true (c :: rest) = c :: collapseAux false rest := by
        simp [collapseAux, ha]
      rw [hc]
      simp [headNotDash, isAlnumLower_ne_dash ha]
    · have hc : collapseAux true (c :: rest) = collapseAux true rest := by
        simp [collapseAux, ha]
      rw [hc]
      exact ih

/-- Prepending a character keeps hyphens non-adjacent when either the new
character is not a hyphen or the old head is not a hyphen. -/
theorem noDD_cons (c : Char) (l : List Char)
    (h1 : (c == '-') = false ∨ headNotDash l = true) (h2 : noDD l = true) :
    noDD (c :: l) = true := by
  cases l with
  | nil => rfl
  | cons d r =>
    simp only [noDD, Bool.and_eq_true, Bool.not_eq_true']
    refine ⟨?_, h2⟩
    rcases h1 with h1 | h1
    · simp [h1]
    · simp only [headNotDash, Bool.not_eq_true'] at h1
      simp [h1]

/-- The collapse step never emits two adjacent hyphens. -/
theorem noDD_collapseAux : ∀ (l : List Char) (b : Bool),
    noDD (collapseAux b l) = true := by
  intro l
  induction l with
  | nil => intro b; rfl
  | cons c rest ih =>
    intro b
    by_cases ha : isAlnumLower c = true
    · have hc : collapseAux b (c :: rest) = c :: collapseAux false rest := by
        simp [collapseAux, ha]
      rw [hc]
      exact noDD_cons c _ (Or.inl (isAlnumLower_ne_dash ha)) (ih false)
    · cases b with
      | true =>
        have hc : collapseAux true (c :: rest) = collapseAux true rest := by
          simp [collapseAux, ha]
        rw [hc]
        exact ih true
      | false =>
        have hc : collapseAux false (c :: rest) = '-' :: collapseAux true rest := by
          simp [collapseAux, ha]
        rw [hc]
        exact noDD_cons '-' _ (Or.inr (headNotDash_collapseAux_true rest)) (ih true)

/-- The slug character alphabet is preserved by any sublist (tails, prefixes,
`dropLast`). -/
theorem slugChars_sublist {l m : List Char} (hs : m.Sublist l)
    (h : slugChars l = true) : slugChars m = true := by
  simp only [slugChars, List.all_eq_true] at h ⊢
  intro c hc
  exact h c (hs.subset hc)

/-- Hyphen non-adjacency is preserved by prefixes. -/
theorem noDD_take : ∀ (l : List Char) (n : Nat),
    noDD l = true → noDD (l.take n) = true := by
  intro l
  induction l with
  | nil => intro n _; simp [noDD]
  | cons a l ih =>
    intro n h
    cases n with
    | zero => simp [noDD]
    | succ m =>
      rw [List.take_succ_cons]
      cases l with
      | nil => simp [List.take, noDD]
      | cons b r =>
        simp only [noDD, Bool.and_eq_true] at h
        cases m with
        | zero => simp [noDD]
        | succ k =>
          rw [List.take_succ_cons]
          simp only [noDD, Bool.and_eq_true]
          refine ⟨h.1, ?_⟩
          have hk := ih (k + 1) h.2
          rwa [List.take_succ_cons] at hk

/-- Hyphen non-adjacency is preserved by `dropLast`. -/
theorem noDD_dropLast (l : List Char) (h : noDD l = true) :
    noDD l.dropLast = true := by
  rw [List.dropLast_eq_take]
  exact noDD_take l _ h

/-- A non-hyphen head is preserved by `take`. -/
theorem headNotDash_take (l : List Char) (n : Nat)
    (h : headNotDash l = true) : headNotDash (l.take n) = true := by
  cases l with
  | nil => simp [headNotDash]
  | cons c r =>
    cases n with
    | zero => rfl
    | succ m => rw [List.take_succ_cons]; exact h

/-- A non-hyphen head is preserved by `dropLast`. -/
theorem headNotDash_dropLast (l : List Char) (h : headNotDash l = true) :
    headNotDash l.dropLast = true := by
  rw [List.dropLast_eq_take]
  exact headNotDash_take l _ h

/-- After `trimLead`, a list with no adjacent hyphens starts with a
non-hyphen. -/
theorem headNotDash_trimLead (l : List Char) (h : noDD l = true) :
    headNotDash (trimLead l) = true := by
  cases l with
  | nil => rfl
  | cons c r =>
    by_cases hc : (c == '-') = true
    · have : c = '-' := eq_of_beq hc
      subst this
      simp only [trimLead, if_pos rfl]
      cases r with
      | nil => rfl
      | cons d s =>
        simp only [noDD, Bool.and_eq_true, Bool.not_eq_true'] at h
        simp only [headNotDash, Bool.not_eq_true']
        simpa using h.1
    · simp only [trimLead, hc, if_false, Bool.false_eq_true]
      simp [headNotDash, hc]

/-- Removing the head keeps hyphens non-adjacent. -/
theorem noDD_tail {c : Char} {l : List Char} (h : noDD (c :: l) = true) :
    noDD l = true := by
  cases l with
  | nil => rfl
  | cons d r =>
    simp only [noDD, Bool.and_eq_true] at h
    exact h.2

/-- Applying `trimLead` yields a sublist. -/
theorem trimLead_sublist (l : List Char) : (trimLead l).Sublist l := by
  cases l with
  | nil => simp [trimLead]
  | cons c r =>
    by_cases hc : (c == '-') = true
    · simp [trimLead, hc]
    · simp [trimLead, hc]

/-- Applying `trimLead` keeps hyphens non-adjacent. -/
theorem noDD_trimLead (l : List Char) (h : noDD l = true) :
    noDD (trimLead l) = true := by
  cases l with
  | nil => rfl
  | cons c r =>
    by_cases hc : (c == '-') = true
    · simp only [trimLead, hc, if_true]
      exact noDD_tail h
    · simp only [trimLead, hc, if_false, Bool.false_eq_true]
      exact h

/-- Applying `trimTrail` yields a sublist. -/
theorem trimTrail_sublist (l : List Char) : (trimTrail l).Sublist l := by
  unfold trimTrail
  by_cases hc : (l.getLast? == some '-') = true
  · simp only [hc, if_true]
    exact List.dropLast_sublist l
  · simp [hc]

/-- Applying `trimTrail` keeps hyphens non-adjacent. -/
theorem noDD_trimTrail (l : List Char) (h : noDD l = true) :
    noDD (trimTrail l) = true := by
  unfold trimTrail
  by_cases hc : (l.getLast? == some '-') = true
  · simp only [hc, if_true]
    exact noDD_dropLast l h
  · simp only [hc, if_false, Bool.false_eq_true]
    exact h

/-- Applying `trimTrail` keeps a non-hyphen head. -/
theorem headNotDash_trimTrail (l : List Char) (h : headNotDash l = true) :
    headNotDash (trimTrail l) = true := by
  unfold trimTrail
  by_cases hc : (l.getLast? == some '-') = true
  · simp only [hc, if_true]
    exact headNotDash_dropLast l h
  · simp only [hc, if_false, Bool.false_eq_true]
    exact h

/-- C8 counterexample: the input of 39 `a`s followed by `" b"` slugs to 39
`a`s followed by a hyphen — the trailing-hyphen trim runs *before* the
40-character truncation, so the cut at position 40 re-exposes a trailing
hyphen, refuting the clause "no leading or trailing hyphen" of the claim. -/
theorem C8_trailing_hyphen_counterexample :
    slug "aaaaaaaaaaaaaaaaaaaaaaaaaaaaaaaaaaaaaaa b"
      = "aaaaaaaaaaaaaaaaaaaaaaaaaaaaaaaaaaaaaaa-"
    ∧ ((slug "aaaaaaaaaaaaaaaaaaaaaaaaaaaaaaaaaaaaaaa b").data.getLast? == some '-')
      = true := by
  exact ⟨by decide, by decide⟩

/-- C8 as amended: `slug` maps `"Fix: login bug!!"` to `"fix-login-bug"`,
and for every input produces a string of lowercase alphanumerics and single
(non-adjacent) hyphen separators, with no leading hyphen and length at most
40; a trailing hyphen, however, can survive when the length cap cuts the
string right after a separator, because trimming precedes truncation. -/
theorem C8_amended_slug_shape :
    slug "Fix: login bug!!" = "fix-login-bug"
    ∧ ∀ s : String,
        slugChars (slug s).data = true
        ∧ noDD (slug s).data = true
        ∧ headNotDash (slug s).data = true
        ∧ (slug s).length ≤ 40 := by
  refine ⟨by decide, ?_⟩
  intro s
  have h1 : slugChars (collapseAux false (s.data.map Char.toLower)) = true :=
    slugChars_collapseAux _ false
  have h2 : noDD (collapseAux false (s.data.map Char.toLower)) = true :=
    noDD_collapseAux _ false
  have t1chars := slugChars_sublist (trimLead_sublist _) h1
  have t1dd := noDD_trimLead _ h2
  have t1head := headNotDash_trimLead _ h2
  have t2chars := slugChars_sublist (trimTrail_sublist _) t1chars
  have t2dd := noDD_trimTrail _ t1dd
  have t2head := headNotDash_trimTrail _ t1head
  refine ⟨slugChars_sublist (List.take_sublist _ _) t2chars,
    noDD_take _ _ t2dd, headNotDash_take _ _ t2head, ?_⟩
  show ((trimTrail (trimLead (collapseAux false
    (s.data.map Char.toLower)))).take 40).length ≤ 40
  simp [List.length_take]

/-- If the Evaluating/Publishing phase ends in a process exit (push failure),
it has neither commented on the item nor created a change request, provided
the trace it inherited was also free of such marks. -/
theorem publishPhase_no_mark (spawn : String → String → RunResult)
    (repoDir branch baseBranch prUrl : String) (issue : IssueInfo)
    (finalText : String) (effPre : List Effect) (d : String)
    (hpre : effPre.filter (fun e => isMark e) = [])
    (h : (publishPhase spawn repoDir branch baseBranch prUrl issue finalText effPre).1
      = .processExit d) :
    ((publishPhase spawn repoDir branch baseBranch prUrl issue finalText effPre).2.filter
      (fun e => isMark e)) = [] := by
  unfold publishPhase at h ⊢
  by_cases hst :
      (strTrim (safeRun spawn "git status --porcelain" repoDir).1.stdout == "") = true
  · simp [hst] at h
  · by_cases hpush :
        (safeRun spawn ("git push -u origin " ++ branch) repoDir).1.ok = false
    · have hall : ∀ a ∈ effPre, isMark a = false := by
        intro a ha
        by_contra hna
        have hmem : a ∈ effPre.filter (fun e => isMark e) :=
          List.mem_filter.mpr ⟨ha, by simpa using hna⟩
        simp [hpre] at hmem
      simp [hst, hpush, isMark, List.filter_append, hpre]
      intro a ha
      exact hall a ha
    · simp [hst, hpush] at h

/-- C4 counterexample: with a failing clone, one pipeline iteration ends in
`processExit` — `die` terminates the whole process — instead of proceeding
to the next poll cycle, refuting the claim that a fatal-run failure merely
aborts the current run and continues polling. -/
theorem C4_fatal_counterexample :
    (runIteration spawnCloneFail svcNoop "https://x/y.git" "/work" "repo" "main"
      "https://pr/1" ⟨7, "T", "B"⟩ ⟨[], []⟩ "sys" "usr").1
      = .processExit "git clone failed: fatal: could not read from remote"
    ∧ isContinueNext (runIteration spawnCloneFail svcNoop "https://x/y.git" "/work"
        "repo" "main" "https://pr/1" ⟨7, "T", "B"⟩ ⟨[], []⟩ "sys" "usr").1 = false :=
  ⟨rfl, rfl⟩

/-- C4 as amended: a fatal-run failure terminates the whole process
(`process.exit(1)`), not just the current run — (1) a failed clone exits
with the clone diagnostic; (2) whenever an iteration exits the process, the
work item was left unmarked: the trace holds no issue comment and no
change-request creation, so the item stays eligible for a retry once the
process is restarted. -/
theorem C4_amended_fatal_exits_process :
    (∀ (spawn : String → String → RunResult) (svc : Nat → List Msg → SvcResp)
        (cloneUrl workRoot repoName baseBranch prUrl : String)
        (issue : IssueInfo) (fs0 : FS) (sysText usrText : String),
      (safeRun spawn
        ("git clone " ++ cloneUrl ++ " "
          ++ pathJoin workRoot (repoName ++ "-" ++ toString issue.number))
        workRoot).1.ok = false →
      (runIteration spawn svc cloneUrl workRoot repoName baseBranch prUrl
        issue fs0 sysText usrText).1
        = .processExit ("git clone failed: "
          ++ (safeRun spawn
            ("git clone " ++ cloneUrl ++ " "
              ++ pathJoin workRoot (repoName ++ "-" ++ toString issue.number))
            workRoot).1.stderr))
    ∧ (∀ (spawn : String → String → RunResult) (svc : Nat → List Msg → SvcResp)
        (cloneUrl workRoot repoName baseBranch prUrl : String)
        (issue : IssueInfo) (fs0 : FS) (sysText usrText d : String),
      (runIteration spawn svc cloneUrl workRoot repoName baseBranch prUrl
        issue fs0 sysText usrText).1 = .processExit d →
      ((runIteration spawn svc cloneUrl workRoot repoName baseBranch prUrl
        issue fs0 sysText usrText).2.filter (fun e => isMark e)) = []) := by
  constructor
  · intro spawn svc cloneUrl workRoot repoName baseBranch prUrl issue fs0
      sysText usrText hfail
    simp [runIteration, hfail]
  · intro spawn svc cloneUrl workRoot repoName baseBranch prUrl issue fs0
      sysText usrText d h
    by_cases hclone : (safeRun spawn
        ("git clone " ++ cloneUrl ++ " "
          ++ pathJoin workRoot (repoName ++ "-" ++ toString issue.number))
        workRoot).1.ok = false
    · simp [runIteration, hclone, isMark]
    · cases hres : (openaiLoop svc spawn
          (pathJoin workRoot (repoName ++ "-" ++ toString issue.number))
          fs0 sysText usrText).result with
      | completed t =>
        rw [runIteration] at h ⊢
        simp only [hclone, hres] at h ⊢
        rw [if_neg (by simp)] at h ⊢
        exact publishPhase_no_mark _ _ _ _ _ _ _ _ _ (by simp [isMark]) h
      | transportFatal st body => simp [runIteration, hclone, hres, isMark]
      | toolFatal e => simp [runIteration, hclone, hres, isMark]
      | budgetExhausted => simp [runIteration, hclone, hres, isMark]

/-- Witness for the amended C4 at the failing-clone input: the iteration
exits the process with the clone diagnostic and leaves no mark. -/
theorem C4_amended_fatal_exits_process_witness :
    (runIteration spawnCloneFail svcNoop "https://x/y.git" "/work" "repo" "main"
      "https://pr/1" ⟨7, "T", "B"⟩ ⟨[], []⟩ "sys" "usr").1
      = .processExit "git clone failed: fatal: could not read from remote"
    ∧ ((runIteration spawnCloneFail svcNoop "https://x/y.git" "/work" "repo" "main"
        "https://pr/1" ⟨7, "T", "B"⟩ ⟨[], []⟩ "sys" "usr").2.filter
          (fun e => isMark e)) = [] :=
  ⟨C4_amended_fatal_exits_process.1 spawnCloneFail svcNoop "https://x/y.git" "/work"
      "repo" "main" "https://pr/1" ⟨7, "T", "B"⟩ ⟨[], []⟩ "sys" "usr" rfl,
   C4_amended_fatal_exits_process.2 spawnCloneFail svcNoop "https://x/y.git" "/work"
      "repo" "main" "https://pr/1" ⟨7, "T", "B"⟩ ⟨[], []⟩ "sys" "usr"
      "git clone failed: fatal: could not read from remote" rfl⟩

/-- C5: once the loop has completed, the pipeline publishes exactly when the
workspace is dirty.  (a) With `git status --porcelain` output empty after
trimming, the iteration continues with precisely one informational comment
and no commit, no push, no change-request creation.  (b) With non-empty
status and a successful push, the iteration continues with precisely one
commit, one branch push and one change-request creation, in that order,
followed by the linking comment. -/
theorem C5_publish_iff_changes (spawn : String → String → RunResult)
    (svc : Nat → List Msg → SvcResp)
    (cloneUrl workRoot repoName baseBranch prUrl : String) (issue : IssueInfo)
    (fs0 : FS) (sysText usrText finalText : String)
    (hclone : (safeRun spawn
      ("git clone " ++ cloneUrl ++ " "
        ++ pathJoin workRoot (repoName ++ "-" ++ toString issue.number))
      workRoot).1.ok = true)
    (hloop : (openaiLoop svc spawn
      (pathJoin workRoot (repoName ++ "-" ++ toString issue.number))
      fs0 sysText usrText).result = .completed finalText) :
    ((strTrim (safeRun spawn "git status --porcelain"
        (pathJoin workRoot (repoName ++ "-" ++ toString issue.number))).1.stdout
        == "") = true →
      runIteration spawn svc cloneUrl workRoot repoName baseBranch prUrl
        issue fs0 sysText usrText
        = (.continueNext,
           [.removeDir (pathJoin workRoot (repoName ++ "-" ++ toString issue.number)),
            .gitCmd ("git clone " ++ cloneUrl ++ " "
              ++ pathJoin workRoot (repoName ++ "-" ++ toString issue.number)) workRoot,
            .gitCmd ("git checkout " ++ baseBranch)
              (pathJoin workRoot (repoName ++ "-" ++ toString issue.number)),
            .gitCmd ("git checkout -b "
              ++ ("agent/issue-" ++ toString issue.number ++ "-" ++ slug issue.title))
              (pathJoin workRoot (repoName ++ "-" ++ toString issue.number)),
            .gitCmd "git status --porcelain"
              (pathJoin workRoot (repoName ++ "-" ++ toString issue.number)),
            .comment issue.number
              (strTake ("I couldn\x27t produce any changes for this issue.\n\nModel notes:\n"
                ++ finalText) 65000),
            .sleep 2000]))
    ∧ ((strTrim (safeRun spawn "git status --porcelain"
        (pathJoin workRoot (repoName ++ "-" ++ toString issue.number))).1.stdout
        == "") = false →
      (safeRun spawn
        ("git push -u origin "
          ++ ("agent/issue-" ++ toString issue.number ++ "-" ++ slug issue.title))
        (pathJoin workRoot (repoName ++ "-" ++ toString issue.number))).1.ok = true →
      runIteration spawn svc cloneUrl workRoot repoName baseBranch prUrl
        issue fs0 sysText usrText
        = (.continueNext,
           [.removeDir (pathJoin workRoot (repoName ++ "-" ++ toString issue.number)),
            .gitCmd ("git clone " ++ cloneUrl ++ " "
              ++ pathJoin workRoot (repoName ++ "-" ++ toString issue.number)) workRoot,
            .gitCmd ("git checkout " ++ baseBranch)
              (pathJoin workRoot (repoName ++ "-" ++ toString issue.number)),
            .gitCmd ("git checkout -b "
              ++ ("agent/issue-" ++ toString issue.number ++ "-" ++ slug issue.title))
              (pathJoin workRoot (repoName ++ "-" ++ toString issue.number)),
            .gitCmd "git status --porcelain"
              (pathJoin workRoot (repoName ++ "-" ++ toString issue.number)),
            .gitCmd "git add -A"
              (pathJoin workRoot (repoName ++ "-" ++ toString issue.number)),
            .gitCmd ("git commit -m \"Fix: #" ++ toString issue.number ++ " "
              ++ escQuotes issue.title ++ "\"")
              (pathJoin workRoot (repoName ++ "-" ++ toString issue.number)),
            .gitCmd ("git push -u origin "
              ++ ("agent/issue-" ++ toString issue.number ++ "-" ++ slug issue.title))
              (pathJoin workRoot (repoName ++ "-" ++ toString issue.number)),
            .createPR
              ("agent/issue-" ++ toString issue.number ++ "-" ++ slug issue.title)
              baseBranch
              ("#" ++ toString issue.number ++ " " ++ issue.title)
              (strTake (finalText ++ "\n\nCloses #" ++ toString issue.number) 65000),
            .comment issue.number
              (strTake ("Opened PR: " ++ prUrl ++ "\n\n" ++ finalText) 65000),
            .sleep 2000])) := by
  constructor
  · intro hst
    rw [runIteration]
    simp only [hclone, hloop]
    rw [if_neg (by simp)]
    rw [publishPhase]
    simp only [hst, if_true]
    simp
  · intro hst hpush
    rw [runIteration]
    simp only [hclone, hloop]
    rw [if_neg (by simp)]
    rw [publishPhase]
    simp only [hst, Bool.false_eq_true, if_false]
    rw [if_neg (by simp [hpush])]
    simp

/-- Witness for C5: with a clean status the iteration continues without
publishing; with a dirty status and successful push it also continues,
having published. -/
theorem C5_publish_iff_changes_witness :
    (runIteration spawnOk svcDone "https://x/y.git" "/work" "repo" "main"
      "https://pr/1" ⟨7, "T", "B"⟩ ⟨[], []⟩ "sys" "usr").1 = .continueNext
    ∧ (runIteration spawnDirty svcDone "https://x/y.git" "/work" "repo" "main"
      "https://pr/1" ⟨7, "T", "B"⟩ ⟨[], []⟩ "sys" "usr").1 = .continueNext := by
  constructor
  · rw [(C5_publish_iff_changes spawnOk svcDone "https://x/y.git" "/work" "repo"
      "main" "https://pr/1" ⟨7, "T", "B"⟩ ⟨[], []⟩ "sys" "usr" "done" rfl rfl).1 rfl]
  · rw [(C5_publish_iff_changes spawnDirty svcDone "https://x/y.git" "/work" "repo"
      "main" "https://pr/1" ⟨7, "T", "B"⟩ ⟨[], []⟩ "sys" "usr" "done" rfl rfl).2 rfl rfl]

